import Mathlib

/-!
Verification of the arithmetic/parity utility functions and the HTTP
handlers of the Flask service (src/backend/app/utils.py and
src/app/main.py), shallowly embedded in Lean 4.

Modelling conventions:
* Python runtime values that can reach these functions are embedded as
  `PyVal`: arbitrary-precision integers become `Int`, floats are embedded
  as exact rationals `Rat` (all operations the claims mention — `+`, `-`,
  `*`, `/`, `abs`, negation, comparison with `0` — are modelled exactly),
  `bool` is a separate constructor even though Python's `bool` is a
  subclass of `int`; `isinstance` checks are translated accordingly.
* Raising an exception is modelled with `Except`: `ValueError` and
  `ZeroDivisionError` become the constructors of `PyErr`, carrying the
  message string from the source.
* JSON response bodies are modelled as flat association lists of
  primitive values; the `timestamp` field (a wall-clock read) is omitted
  from the modelled bodies, since no claim mentions it.
-/

deriving instance DecidableEq for Except

/-- A Python runtime value, restricted to the types that can reach the
functions under verification. -/
inductive PyVal where
  | int : Int → PyVal
  | float : Rat → PyVal
  | bool : Bool → PyVal
  | str : String → PyVal
  | none : PyVal
deriving DecidableEq, Repr

/-- A Python exception as raised by the utility functions:
`ValueError` (the spec's InvalidInput) or `ZeroDivisionError`
(the spec's DivisionByZero), with its message. -/
inductive PyErr where
  | valueError : String → PyErr
  | zeroDivisionError : String → PyErr
deriving DecidableEq, Repr

namespace PyVal

/-- Python `isinstance(v, (int, float))`.  `True`/`False` are instances
of `int` in Python, so booleans count as numeric here. -/
def isNumeric : PyVal → Bool
  | .int _ => true
  | .float _ => true
  | .bool _ => true
  | _ => false

/-- Python `isinstance(v, bool)`. -/
def isBool : PyVal → Bool
  | .bool _ => true
  | _ => false

/-- Python `isinstance(v, int)` — true for ints and bools. -/
def isInt : PyVal → Bool
  | .int _ => true
  | .bool _ => true
  | _ => false

/-- The exact numeric value of a numeric `PyVal` (0 for non-numerics,
which every use site guards against). -/
def toRat : PyVal → Rat
  | .int i => (i : Rat)
  | .float q => q
  | .bool b => if b then 1 else 0
  | _ => 0

/-- The integer value of a `PyVal` when Python would treat it as an
`int` operand (bools promote to 0/1), `Option.none` otherwise. -/
def asInt : PyVal → Option Int
  | .int i => some i
  | .bool b => some (if b then 1 else 0)
  | _ => Option.none

end PyVal

open PyVal

/-- Python numeric `+` on operands that passed the `isinstance` checks:
int-typed operands give an int, otherwise the result is a float. -/
def pyAdd (a b : PyVal) : PyVal :=
  match a.asInt, b.asInt with
  | some i, some j => .int (i + j)
  | _, _ => .float (a.toRat + b.toRat)

/-- Python numeric `-` (binary). -/
def pySub (a b : PyVal) : PyVal :=
  match a.asInt, b.asInt with
  | some i, some j => .int (i - j)
  | _, _ => .float (a.toRat - b.toRat)

/-- Python numeric `*`. -/
def pyMul (a b : PyVal) : PyVal :=
  match a.asInt, b.asInt with
  | some i, some j => .int (i * j)
  | _, _ => .float (a.toRat * b.toRat)

/-- Python unary `-` on a numeric value. -/
def pyNeg (a : PyVal) : PyVal :=
  match a.asInt with
  | some i => .int (-i)
  | _ => .float (-a.toRat)

/-- Python built-in `abs` on a numeric value. -/
def pyAbs (a : PyVal) : PyVal :=
  match a.asInt with
  | some i => .int |i|
  | _ => .float |a.toRat|

/-- `add_numbers` from src/backend/app/utils.py: validates both operands
are numeric and not boolean, then returns `a + b`. -/
def add_numbers (a b : PyVal) : Except PyErr PyVal :=
  if !(a.isNumeric && b.isNumeric) then
    .error (.valueError "Both inputs must be integers or floats")
  else if a.isBool || b.isBool then
    .error (.valueError "Boolean values are not allowed")
  else
    .ok (pyAdd a b)

/-- `subtract_numbers` from src/backend/app/utils.py. -/
def subtract_numbers (a b : PyVal) : Except PyErr PyVal :=
  if !(a.isNumeric && b.isNumeric) then
    .error (.valueError "Both inputs must be integers or floats")
  else if a.isBool || b.isBool then
    .error (.valueError "Boolean values are not allowed")
  else
    .ok (pySub a b)

/-- `multiply_numbers` from src/backend/app/utils.py. -/
def multiply_numbers (a b : PyVal) : Except PyErr PyVal :=
  if !(a.isNumeric && b.isNumeric) then
    .error (.valueError "Both inputs must be integers or floats")
  else if a.isBool || b.isBool then
    .error (.valueError "Boolean values are not allowed")
  else
    .ok (pyMul a b)

/-- `divide_numbers` from src/backend/app/utils.py: numeric validation,
then boolean rejection, then the zero check (`b == 0` compares the
numeric value), and finally Python true division `a / b`, which always
yields a float. -/
def divide_numbers (a b : PyVal) : Except PyErr PyVal :=
  if !(a.isNumeric && b.isNumeric) then
    .error (.valueError "Both inputs must be integers or floats")
  else if a.isBool || b.isBool then
    .error (.valueError "Boolean values are not allowed")
  else if b.toRat = 0 then
    .error (.zeroDivisionError "Cannot divide by zero")
  else
    .ok (.float (a.toRat / b.toRat))

/-- The binary digits of a natural number, most significant first, as
produced by Python's `bin` after the `0b` prefix (empty for 0; `bin 0`
special-cases to the digit `0` in `pyBin` below). -/
def binDigits (n : Nat) : List Char :=
  if n = 0 then []
  else binDigits (n / 2) ++ [if n % 2 = 1 then '1' else '0']
decreasing_by exact Nat.div_lt_self (Nat.pos_of_ne_zero (by assumption)) one_lt_two

/-- Python `bin(n)` as a character list: `-0b...` for negative `n`,
`0b...` otherwise, with the minimal binary digits of `|n|` (and the
single digit `0` when `n = 0`). -/
def pyBin (n : Int) : List Char :=
  (if n < 0 then ['-', '0', 'b'] else ['0', 'b']) ++
    (if n = 0 then ['0'] else binDigits n.natAbs)

/-- `even_parity` from src/backend/app/utils.py: requires a non-boolean
int, then counts the `'1'` characters of `bin(n)[2:]` (for negative `n`
that slice still contains the `b` of the prefix, which is not counted)
and tests `not count & 1`, i.e. whether the count is even. -/
def even_parity (v : PyVal) : Except PyErr PyVal :=
  if !v.isInt || v.isBool then
    .error (.valueError "Input must be an integer")
  else
    match v with
    | .int n =>
        let count := ((pyBin n).drop 2).count '1'
        .ok (.bool (count % 2 = 0))
    | _ => .error (.valueError "Input must be an integer")

/-- Python `n & 1` for an arbitrary-precision int: two's-complement
bitwise AND with 1 extracts the low bit, which equals `n` modulo 2
(e.g. `-3 & 1 == 1` in Python, matching `Int.emod (-3) 2 = 1`). -/
def pyAnd1 (n : Int) : Int := n.emod 2

/-- `is_even` from src/backend/app/utils.py: non-boolean int required;
returns `not n & 1`. -/
def is_even (v : PyVal) : Except PyErr PyVal :=
  if !v.isInt || v.isBool then
    .error (.valueError "Input must be an integer")
  else
    match v with
    | .int n => .ok (.bool (pyAnd1 n = 0))
    | _ => .error (.valueError "Input must be an integer")

/-- `is_odd` from src/backend/app/utils.py: non-boolean int required;
returns `bool(n & 1)` (an int is truthy iff nonzero). -/
def is_odd (v : PyVal) : Except PyErr PyVal :=
  if !v.isInt || v.isBool then
    .error (.valueError "Input must be an integer")
  else
    match v with
    | .int n => .ok (.bool (pyAnd1 n ≠ 0))
    | _ => .error (.valueError "Input must be an integer")

/-- `square` from src/backend/app/utils.py: numeric non-boolean
required; returns `n * n`. -/
def square (v : PyVal) : Except PyErr PyVal :=
  if !v.isNumeric || v.isBool then
    .error (.valueError "Input must be a number (int or float)")
  else
    .ok (pyMul v v)

/-- `absolute_value` from src/backend/app/utils.py: numeric non-boolean
required; returns `abs(n)`. -/
def absolute_value (v : PyVal) : Except PyErr PyVal :=
  if !v.isNumeric || v.isBool then
    .error (.valueError "Input must be a number (int or float)")
  else
    .ok (pyAbs v)

/-- The number of set bits of a natural number (the spec's "count of
1-bits in the minimal unsigned binary representation"). -/
def popcount (n : Nat) : Nat :=
  if n = 0 then 0
  else popcount (n / 2) + n % 2
decreasing_by exact Nat.div_lt_self (Nat.pos_of_ne_zero (by assumption)) one_lt_two

/-- Whether a result is a raised `ValueError` (the spec's InvalidInput). -/
def raisesValueError : Except PyErr PyVal → Bool
  | .error (.valueError _) => true
  | _ => false

/-- A primitive JSON value appearing in a response body field. -/
inductive JPrim where
  | s : String → JPrim
  | i : Int → JPrim
  | f : Rat → JPrim
  | b : Bool → JPrim
deriving DecidableEq, Repr

/-- A JSON response body: an association list of fields (all bodies in
src/app/main.py are flat objects).  The `timestamp` field is omitted
(it reads the wall clock; no claim depends on it). -/
abbrev JBody := List (String × JPrim)

/-- An HTTP response: status code and JSON body. -/
structure HttpResponse where
  status : Nat
  body : JBody
deriving DecidableEq, Repr

/-- The JSON serialization of an operation result value. -/
def pyToJson : PyVal → JPrim
  | .int i => .i i
  | .float q => .f q
  | .bool b => .b b
  | .str s => .s s
  | .none => .s "null"

/-- The natural number denoted by a string of decimal digits. -/
def digitsToNat (l : List Char) : Nat :=
  l.foldl (fun acc c => 10 * acc + (c.toNat - '0'.toNat)) 0

/-- Python `int(s)` on a query-parameter string: `some` the parsed
integer for an optionally-signed decimal literal, `Option.none`
(a raised `ValueError`) otherwise.  (Python's `int()` also tolerates
surrounding whitespace and underscores; no claim depends on those.) -/
def pyIntParse (s : String) : Option Int :=
  match s.toList with
  | [] => Option.none
  | '-' :: rest =>
      if !rest.isEmpty && rest.all Char.isDigit then
        some (-(digitsToNat rest : Int))
      else Option.none
  | '+' :: rest =>
      if !rest.isEmpty && rest.all Char.isDigit then
        some (digitsToNat rest : Int)
      else Option.none
  | l =>
      if l.all Char.isDigit then some (digitsToNat l : Int)
      else Option.none

/-- The HTTP 500 response produced by the `internal_server_error`
handler in src/app/main.py (reached when a handler lets an unexpected
exception escape). -/
def internalServerErrorResponse : HttpResponse :=
  ⟨500, [("error", .s "Internal server error"), ("status", .i 500),
         ("message", .s "An unexpected error occurred")]⟩

/-- The HTTP 404 response produced by the `not_found` error handler in
src/app/main.py. -/
def notFoundResponse : HttpResponse :=
  ⟨404, [("error", .s "Endpoint not found"), ("status", .i 404),
         ("message", .s "The requested endpoint does not exist")]⟩

/-- The body of a successful two-parameter arithmetic response in
src/app/main.py: operation name, echoed operands, result. -/
def binaryOkBody (opname : String) (a b : Int) (result : PyVal) : JBody :=
  [("operation", .s opname), ("a", .i a), ("b", .i b),
   ("result", pyToJson result)]

/-- The `add` handler from src/app/main.py (route `/api/add`).  The
operation function is passed as the parameter `op` (the application
instantiates it with `add_numbers`, see `add_route`), so that theorems
can quantify over it; `a?`/`b?` are `request.args.get("a"/"b")`.
Control flow: missing parameter → 400; `int()` failure (a raised
`ValueError`) is caught by the handler's `except ValueError` → 400;
a `ValueError` from the operation is caught by the same clause → 400;
an uncaught `ZeroDivisionError` would escape to the 500 handler. -/
def addHandler (op : PyVal → PyVal → Except PyErr PyVal)
    (a? b? : Option String) : HttpResponse :=
  match a?, b? with
  | Option.none, _ => ⟨400, [("error", .s "Parameters 'a' and 'b' are required")]⟩
  | _, Option.none => ⟨400, [("error", .s "Parameters 'a' and 'b' are required")]⟩
  | some sa, some sb =>
      match pyIntParse sa, pyIntParse sb with
      | some a, some b =>
          match op (.int a) (.int b) with
          | .ok r => ⟨200, binaryOkBody "add" a b r⟩
          | .error (.valueError _) =>
              ⟨400, [("error", .s "Parameters must be valid integers")]⟩
          | .error (.zeroDivisionError _) => internalServerErrorResponse
      | _, _ => ⟨400, [("error", .s "Parameters must be valid integers")]⟩

/-- The `subtract` handler from src/app/main.py (route `/api/subtract`);
same structure as `addHandler`. -/
def subtractHandler (op : PyVal → PyVal → Except PyErr PyVal)
    (a? b? : Option String) : HttpResponse :=
  match a?, b? with
  | Option.none, _ => ⟨400, [("error", .s "Parameters 'a' and 'b' are required")]⟩
  | _, Option.none => ⟨400, [("error", .s "Parameters 'a' and 'b' are required")]⟩
  | some sa, some sb =>
      match pyIntParse sa, pyIntParse sb with
      | some a, some b =>
          match op (.int a) (.int b) with
          | .ok r => ⟨200, binaryOkBody "subtract" a b r⟩
          | .error (.valueError _) =>
              ⟨400, [("error", .s "Parameters must be valid integers")]⟩
          | .error (.zeroDivisionError _) => internalServerErrorResponse
      | _, _ => ⟨400, [("error", .s "Parameters must be valid integers")]⟩

/-- The `multiply` handler from src/app/main.py (route `/api/multiply`);
same structure as `addHandler`. -/
def multiplyHandler (op : PyVal → PyVal → Except PyErr PyVal)
    (a? b? : Option String) : HttpResponse :=
  match a?, b? with
  | Option.none, _ => ⟨400, [("error", .s "Parameters 'a' and 'b' are required")]⟩
  | _, Option.none => ⟨400, [("error", .s "Parameters 'a' and 'b' are required")]⟩
  | some sa, some sb =>
      match pyIntParse sa, pyIntParse sb with
      | some a, some b =>
          match op (.int a) (.int b) with
          | .ok r => ⟨200, binaryOkBody "multiply" a b r⟩
          | .error (.valueError _) =>
              ⟨400, [("error", .s "Parameters must be valid integers")]⟩
          | .error (.zeroDivisionError _) => internalServerErrorResponse
      | _, _ => ⟨400, [("error", .s "Parameters must be valid integers")]⟩

/-- The `divide` handler from src/app/main.py (route `/api/divide`);
same structure as `addHandler` except that it also catches
`ZeroDivisionError` and maps it to 400. -/
def divideHandler (op : PyVal → PyVal → Except PyErr PyVal)
    (a? b? : Option String) : HttpResponse :=
  match a?, b? with
  | Option.none, _ => ⟨400, [("error", .s "Parameters 'a' and 'b' are required")]⟩
  | _, Option.none => ⟨400, [("error", .s "Parameters 'a' and 'b' are required")]⟩
  | some sa, some sb =>
      match pyIntParse sa, pyIntParse sb with
      | some a, some b =>
          match op (.int a) (.int b) with
          | .ok r => ⟨200, binaryOkBody "divide" a b r⟩
          | .error (.valueError _) =>
              ⟨400, [("error", .s "Parameters must be valid integers")]⟩
          | .error (.zeroDivisionError _) =>
              ⟨400, [("error", .s "Division by zero is not allowed")]⟩
      | _, _ => ⟨400, [("error", .s "Parameters must be valid integers")]⟩

/-- The application's `/api/add` endpoint: `addHandler` instantiated
with `add_numbers`, as in src/app/main.py. -/
def add_route (a? b? : Option String) : HttpResponse :=
  addHandler add_numbers a? b?

/-- The `parity_endpoint` handler from src/app/main.py (route
`/api/parity/<int:n>`): the converter hands it a non-negative integer;
it calls `is_even` and `is_odd` and builds the 200 body (with ints the
`except ValueError` branch is unreachable, but it is modelled: a
`ValueError` message becomes a 400 body). -/
def parity_endpoint (n : Nat) : HttpResponse :=
  match is_even (.int n), is_odd (.int n) with
  | .ok (.bool even), .ok (.bool odd) =>
      ⟨200, [("operation", .s "parity"), ("input", .i n),
             ("is_even", .b even), ("is_odd", .b odd),
             ("parity", .s (if even then "even" else "odd"))]⟩
  | .error (.valueError m), _ => ⟨400, [("error", .s m)]⟩
  | _, .error (.valueError m) => ⟨400, [("error", .s m)]⟩
  | _, _ => internalServerErrorResponse

/-- The `odd_even_endpoint` handler from src/app/main.py (route
`/api/odd_even/<int:n>`, alias of parity with a different body). -/
def odd_even_endpoint (n : Nat) : HttpResponse :=
  match is_even (.int n), is_odd (.int n) with
  | .ok (.bool even), .ok (.bool odd) =>
      ⟨200, [("operation", .s "Odd/Even Check"), ("input", .i n),
             ("is_even", .b even), ("is_odd", .b odd),
             ("status", .s (if even then "even" else "odd"))]⟩
  | .error (.valueError m), _ => ⟨400, [("error", .s m)]⟩
  | _, .error (.valueError m) => ⟨400, [("error", .s m)]⟩
  | _, _ => internalServerErrorResponse

/-- Modelled from the spec: the routing layer's `<int:n>` path
converter (part of the web framework, not of src/) is "constrained by
the routing layer to accept only non-negative integers in its literal
form" — it matches exactly the non-empty strings of decimal digits. -/
def intConverterMatches (seg : String) : Bool :=
  !seg.toList.isEmpty && seg.toList.all Char.isDigit

/-- The value the `<int:n>` converter passes to the handler when its
segment matched (a non-empty digit string). -/
def intConverterValue (seg : String) : Nat :=
  digitsToNat seg.toList

/-- Routing for `/api/parity/<int:n>`: if the path segment matches the
converter's grammar the handler runs; otherwise the route does not
match and the request falls through to the `not_found` 404 handler. -/
def dispatchParity (seg : String) : HttpResponse :=
  if intConverterMatches seg then parity_endpoint (intConverterValue seg)
  else notFoundResponse

/-- Routing for `/api/odd_even/<int:n>`, same grammar. -/
def dispatchOddEven (seg : String) : HttpResponse :=
  if intConverterMatches seg then odd_even_endpoint (intConverterValue seg)
  else notFoundResponse

example : add_numbers (.int 5) (.int 3) = .ok (.int 8) := by decide
example : divide_numbers (.int 10) (.int 2) = .ok (.float 5) := by
  norm_num [divide_numbers, isNumeric, isBool, toRat]
example : even_parity (.int 4) = .ok (.bool false) := by
  simp [even_parity, pyBin, binDigits, isInt, isBool]
example : even_parity (.int 5) = .ok (.bool true) := by
  simp [even_parity, pyBin, binDigits, isInt, isBool]
example : even_parity (.int (-5)) = .ok (.bool true) := by
  simp [even_parity, pyBin, binDigits, isInt, isBool]
example : even_parity (.int 0) = .ok (.bool true) := by
  simp [even_parity, pyBin, binDigits, isInt, isBool]
example : popcount 5 = 2 := by simp [popcount]
example : is_even (.int (-3)) = .ok (.bool false) := by decide
example : is_odd (.int (-3)) = .ok (.bool true) := by decide
example : square (.float (5/2)) = .ok (.float (25/4)) := by
  norm_num [square, pyMul, isNumeric, isBool, toRat, asInt]
example : absolute_value (.float (-5/2)) = .ok (.float (5/2)) := by
  norm_num [absolute_value, pyAbs, isNumeric, isBool, toRat, asInt, abs]
example : raisesValueError (add_numbers (.bool true) (.int 1)) = true := by decide
example : add_route (some "5") (some "3") =
    ⟨200, binaryOkBody "add" 5 3 (.int 8)⟩ := by decide
example : divideHandler divide_numbers (some "10") (some "0") =
    ⟨400, [("error", .s "Division by zero is not allowed")]⟩ := by decide
example : dispatchParity "4" =
    ⟨200, [("operation", .s "parity"), ("input", .i 4),
           ("is_even", .b true), ("is_odd", .b false),
           ("parity", .s "even")]⟩ := by decide
example : dispatchParity "-5" = notFoundResponse := by decide
example : dispatchOddEven "-1" = notFoundResponse := by decide

/-! ## Supporting lemmas -/

theorem count_binDigits (m : Nat) : (binDigits m).count '1' = popcount m := by
  induction m using Nat.strong_induction_on with
  | _ m ih =>
    rw [binDigits, popcount]
    by_cases h : m = 0
    · simp [h]
    · simp only [h, if_false]
      rw [List.count_append, ih (m / 2) (Nat.div_lt_self (Nat.pos_of_ne_zero h) one_lt_two)]
      rcases Nat.mod_two_eq_zero_or_one m with h2 | h2 <;> simp [h2]

theorem count_drop_pyBin (n : Int) :
    ((pyBin n).drop 2).count '1' = popcount n.natAbs := by
  unfold pyBin
  by_cases h0 : n = 0
  · rw [popcount]
    simp [h0]
  · by_cases hn : n < 0
    · simp [hn, h0, count_binDigits]
    · simp [hn, h0, count_binDigits]

theorem even_parity_int (m : Int) :
    even_parity (.int m) = .ok (.bool (popcount m.natAbs % 2 = 0)) := by
  simp [even_parity, isInt, isBool, count_drop_pyBin]

/-! ## Claims -/

/-- C1: for non-boolean numeric operands `a` and `b`, `divide_numbers`
raises `ZeroDivisionError` (the spec's DivisionByZero) iff `b == 0`,
and otherwise returns `a / b` as a float. -/
theorem divide_numbers_zero_iff (a b : PyVal)
    (ha : a.isNumeric = true) (hb : b.isNumeric = true)
    (ha' : a.isBool = false) (hb' : b.isBool = false) :
    (divide_numbers a b = .error (.zeroDivisionError "Cannot divide by zero")
      ↔ b.toRat = 0) ∧
    (b.toRat ≠ 0 →
      divide_numbers a b = .ok (.float (a.toRat / b.toRat))) := by
  unfold divide_numbers
  by_cases h : b.toRat = 0 <;> simp [ha, hb, ha', hb', h]

/-- Witness for C1: `divide_numbers(10, 2)` has numeric non-boolean
operands and a nonzero divisor and returns the float quotient. -/
theorem divide_numbers_zero_iff_witness :
    divide_numbers (.int 10) (.int 2) =
      .ok (.float ((PyVal.int 10).toRat / (PyVal.int 2).toRat)) :=
  (divide_numbers_zero_iff (.int 10) (.int 2)
    (by decide) (by decide) (by decide) (by decide)).2 (by decide)

/-- C2: `even_parity(n)` returns true iff the count of 1-bits in the
minimal unsigned binary representation of `|n|` is even, and the result
is independent of sign: `even_parity(n) == even_parity(-n)`. -/
theorem even_parity_counts_abs_bits (n : Int) :
    even_parity (.int n) = .ok (.bool (popcount n.natAbs % 2 = 0)) ∧
    even_parity (.int (-n)) = even_parity (.int n) := by
  refine ⟨even_parity_int n, ?_⟩
  rw [even_parity_int, even_parity_int, Int.natAbs_neg]

/-- C5: for every integer `n`, `is_even(n)` and `is_odd(n)` both
succeed with boolean results whose exclusive or is true. -/
theorem is_even_xor_is_odd (n : Int) :
    ∃ e o : Bool,
      is_even (.int n) = .ok (.bool e) ∧
      is_odd (.int n) = .ok (.bool o) ∧
      xor e o = true := by
  refine ⟨decide (pyAnd1 n = 0), decide (pyAnd1 n ≠ 0), ?_, ?_, ?_⟩
  · simp [is_even, isInt, isBool]
  · simp [is_odd, isInt, isBool]
  · rcases Int.emod_two_eq n with h | h <;> simp [pyAnd1, h]

/-- C3: every operation function rejects boolean-typed operands with a
`ValueError` (the spec's InvalidInput), even though booleans pass the
`isinstance(·, int)` structural check. -/
theorem bool_operands_rejected :
    (∀ a b : PyVal, (a.isBool || b.isBool) = true →
      raisesValueError (add_numbers a b) = true ∧
      raisesValueError (subtract_numbers a b) = true ∧
      raisesValueError (multiply_numbers a b) = true ∧
      raisesValueError (divide_numbers a b) = true) ∧
    (∀ v : PyVal, v.isBool = true →
      raisesValueError (square v) = true ∧
      raisesValueError (absolute_value v) = true ∧
      raisesValueError (is_even v) = true ∧
      raisesValueError (is_odd v) = true ∧
      raisesValueError (even_parity v) = true) := by
  constructor
  · intro a b h
    cases a <;> cases b <;>
      simp_all [add_numbers, subtract_numbers, multiply_numbers,
        divide_numbers, isBool, isNumeric, raisesValueError]
  · intro v h
    cases v <;>
      simp_all [square, absolute_value, is_even, is_odd, even_parity,
        isBool, isNumeric, isInt, raisesValueError]

/-- Witness for C3: a boolean first operand makes `add_numbers` raise a
`ValueError`, and a boolean input makes `square` raise a `ValueError`. -/
theorem bool_operands_rejected_witness :
    raisesValueError (add_numbers (.bool true) (.int 3)) = true ∧
    raisesValueError (square (.bool false)) = true :=
  ⟨(bool_operands_rejected.1 (.bool true) (.int 3) (by decide)).1,
   (bool_operands_rejected.2 (.bool false) (by decide)).1⟩

/-- C4: in `divide_numbers` numeric validation strictly precedes the
domain check — any non-numeric or boolean operand yields a `ValueError`
regardless of `b` (in particular even when `b == 0`), and a
`ZeroDivisionError` can only arise with both operands numeric and
non-boolean. -/
theorem divide_validation_precedes_domain :
    (∀ a b : PyVal,
      (!(a.isNumeric && b.isNumeric) || a.isBool || b.isBool) = true →
      raisesValueError (divide_numbers a b) = true) ∧
    (∀ (a b : PyVal) (m : String),
      divide_numbers a b = .error (.zeroDivisionError m) →
      a.isNumeric = true ∧ b.isNumeric = true ∧
      a.isBool = false ∧ b.isBool = false) := by
  constructor
  · intro a b h
    unfold divide_numbers
    rcases Bool.or_eq_true_iff.mp h with h1 | h1
    · rcases Bool.or_eq_true_iff.mp h1 with h2 | h2
      · simp [h2, raisesValueError]
      · by_cases hn : (a.isNumeric && b.isNumeric) = true <;>
          simp [hn, h2, raisesValueError]
    · by_cases hn : (a.isNumeric && b.isNumeric) = true <;>
        simp [hn, h1, raisesValueError]
  · intro a b m h
    unfold divide_numbers at h
    split_ifs at h with h1 h2 h3 <;> simp_all

/-- Witness for C4: a non-numeric first operand with `b == 0` still
raises `ValueError` rather than `ZeroDivisionError`, and the concrete
zero division `divide_numbers(1, 0)` certifies the second part's
hypothesis is satisfiable. -/
theorem divide_validation_precedes_domain_witness :
    raisesValueError (divide_numbers (.str "x") (.int 0)) = true ∧
    ((PyVal.int 1).isNumeric = true ∧ (PyVal.int 0).isNumeric = true ∧
     (PyVal.int 1).isBool = false ∧ (PyVal.int 0).isBool = false) :=
  ⟨divide_validation_precedes_domain.1 (.str "x") (.int 0) (by decide),
   divide_validation_precedes_domain.2 (.int 1) (.int 0)
     "Cannot divide by zero" (by decide)⟩

/-- C6: for each two-parameter arithmetic handler, a missing `a` or `b`
query parameter produces HTTP 400 with the fixed error body, and the
operation function is not invoked (the response is the same for every
operation function `op`). -/
theorem missing_params_400
    (op : PyVal → PyVal → Except PyErr PyVal) (a? b? : Option String)
    (h : a? = Option.none ∨ b? = Option.none) :
    addHandler op a? b? =
      ⟨400, [("error", .s "Parameters 'a' and 'b' are required")]⟩ ∧
    subtractHandler op a? b? =
      ⟨400, [("error", .s "Parameters 'a' and 'b' are required")]⟩ ∧
    multiplyHandler op a? b? =
      ⟨400, [("error", .s "Parameters 'a' and 'b' are required")]⟩ ∧
    divideHandler op a? b? =
      ⟨400, [("error", .s "Parameters 'a' and 'b' are required")]⟩ := by
  rcases h with h | h
  · subst h; cases b? <;> exact ⟨rfl, rfl, rfl, rfl⟩
  · subst h; cases a? <;> exact ⟨rfl, rfl, rfl, rfl⟩

/-- Witness for C6: calling the handlers with `a` absent (and
`add_numbers` as the operation) yields the 400 responses. -/
theorem missing_params_400_witness :
    addHandler add_numbers Option.none (some "3") =
      ⟨400, [("error", .s "Parameters 'a' and 'b' are required")]⟩ ∧
    subtractHandler add_numbers Option.none (some "3") =
      ⟨400, [("error", .s "Parameters 'a' and 'b' are required")]⟩ ∧
    multiplyHandler add_numbers Option.none (some "3") =
      ⟨400, [("error", .s "Parameters 'a' and 'b' are required")]⟩ ∧
    divideHandler add_numbers Option.none (some "3") =
      ⟨400, [("error", .s "Parameters 'a' and 'b' are required")]⟩ :=
  missing_params_400 add_numbers Option.none (some "3") (Or.inl rfl)

/-- C7: a negative integer literal in the path of `/api/parity/<int:n>`
or `/api/odd_even/<int:n>` is outside the converter's grammar, so the
request yields the `not_found` 404 response, never a 400 validation
error. -/
theorem negative_path_literal_404 (m : Nat) :
    dispatchParity ("-" ++ toString (m + 1)) = notFoundResponse ∧
    dispatchOddEven ("-" ++ toString (m + 1)) = notFoundResponse ∧
    notFoundResponse.status = 404 ∧ notFoundResponse.status ≠ 400 := by
  have hmatch : intConverterMatches ("-" ++ toString (m + 1)) = false := by
    unfold intConverterMatches
    simp [String.toList, String.data_append]
  refine ⟨?_, ?_, rfl, by decide⟩ <;>
    simp [dispatchParity, dispatchOddEven, hmatch]

/-- C8: `square(n)` and `multiply_numbers(n, n)` agree on every
non-boolean numeric input. -/
theorem square_eq_multiply (n : PyVal)
    (h : n.isNumeric = true) (h' : n.isBool = false) :
    square n = multiply_numbers n n := by
  unfold square multiply_numbers
  simp [h, h']

/-- Witness for C8: `square(7) = multiply_numbers(7, 7)`. -/
theorem square_eq_multiply_witness :
    square (.int 7) = multiply_numbers (.int 7) (.int 7) :=
  square_eq_multiply (.int 7) (by decide) (by decide)

/-- C9: on every non-boolean numeric input, `absolute_value` succeeds
with a value `≥ 0` and is invariant under negating its input. -/
theorem absolute_value_nonneg_neg (n : PyVal)
    (h : n.isNumeric = true) (h' : n.isBool = false) :
    absolute_value n = .ok (pyAbs n) ∧ 0 ≤ (pyAbs n).toRat ∧
    absolute_value (pyNeg n) = absolute_value n := by
  cases n with
  | int i =>
      refine ⟨by simp [absolute_value, isNumeric, isBool], ?_, ?_⟩
      · simp [pyAbs, asInt, toRat]
      · simp [absolute_value, pyNeg, isNumeric, isBool, pyAbs, asInt, abs_neg]
  | float q =>
      refine ⟨by simp [absolute_value, isNumeric, isBool], ?_, ?_⟩
      · simp [pyAbs, asInt, toRat]
      · simp [absolute_value, pyNeg, isNumeric, isBool, pyAbs, asInt,
          toRat, abs_neg]
  | bool b => simp [isBool] at h'
  | str s => simp [isNumeric] at h
  | none => simp [isNumeric] at h

/-- Witness for C9, instantiated at `n = -5`. -/
theorem absolute_value_nonneg_neg_witness :
    absolute_value (.int (-5)) = .ok (pyAbs (.int (-5))) ∧
    0 ≤ (pyAbs (.int (-5))).toRat ∧
    absolute_value (pyNeg (.int (-5))) = absolute_value (.int (-5)) :=
  absolute_value_nonneg_neg (.int (-5)) (by decide) (by decide)

/-- Counterexample for C10 as stated: `divide_numbers(1.0, 0.0)` has
only non-boolean float operands yet does not return an arithmetic
result — it raises `ZeroDivisionError`. -/
theorem float_operands_divide_zero_counterexample :
    divide_numbers (.float 1) (.float 0) =
      .error (.zeroDivisionError "Cannot divide by zero") ∧
    (divide_numbers (.float 1) (.float 0)).isOk = false := by
  constructor <;> rfl

/-- C10 (amended): the operation functions accept non-boolean float
operands and never raise InvalidInput on them: add, subtract, multiply,
square and absolute_value return the arithmetic result, and divide
returns the float quotient whenever the divisor is nonzero (raising
DivisionByZero, not InvalidInput, when it is zero). -/
theorem float_operands_accepted (x y : Rat) :
    add_numbers (.float x) (.float y) = .ok (.float (x + y)) ∧
    subtract_numbers (.float x) (.float y) = .ok (.float (x - y)) ∧
    multiply_numbers (.float x) (.float y) = .ok (.float (x * y)) ∧
    square (.float x) = .ok (.float (x * x)) ∧
    absolute_value (.float x) = .ok (.float |x|) ∧
    raisesValueError (divide_numbers (.float x) (.float y)) = false ∧
    (y ≠ 0 →
      divide_numbers (.float x) (.float y) = .ok (.float (x / y))) := by
  refine ⟨?_, ?_, ?_, ?_, ?_, ?_, ?_⟩
  · simp [add_numbers, isNumeric, isBool, pyAdd, asInt, toRat]
  · simp [subtract_numbers, isNumeric, isBool, pySub, asInt, toRat]
  · simp [multiply_numbers, isNumeric, isBool, pyMul, asInt, toRat]
  · simp [square, isNumeric, isBool, pyMul, asInt, toRat]
  · simp [absolute_value, isNumeric, isBool, pyAbs, asInt, toRat]
  · by_cases hy : y = 0 <;>
      simp [divide_numbers, isNumeric, isBool, toRat, hy, raisesValueError]
  · intro hy
    simp [divide_numbers, isNumeric, isBool, toRat, hy]

/-- Witness for C10 (amended): `divide_numbers(1.0, 2.0)` returns the
float quotient. -/
theorem float_operands_accepted_witness :
    divide_numbers (.float 1) (.float 2) = .ok (.float ((1 : Rat) / 2)) :=
  (float_operands_accepted 1 2).2.2.2.2.2.2 (by decide)
